import Mathlib

/-!
Shallow embedding of the llm-engine serving core (app/core/cache.py,
app/core/memory_manager.py, app/core/model_manager.py,
app/core/model_loader.py, app/core/async_inference.py and the
generate router), together with theorems settling the spec claims.

Conventions: Python dicts with string keys are embedded as association
lists in insertion order (an OrderedDict's iteration order); since a dict
holds at most one binding per key, deleting a binding is embedded as
filtering the key out.  `time.time()` values are embedded as natural
numbers supplied explicitly to each operation.  Float arithmetic that
only feeds comparisons (urgency scores, the memory budget) is embedded
over `Rat`, which is exact on the integer-valued inputs involved.
-/

set_option linter.unusedVariables false

namespace LlmEngine

/-! ## Response cache (app/core/cache.py, class ResponseCache)

A cache entry is the pair `(value, timestamp)` stored under a string key
in `self.cache : OrderedDict`; the front of the list is the oldest /
least-recently-used binding. -/

structure CacheEntryRec (α : Type) where
  key : String
  value : α
  timestamp : Nat
deriving DecidableEq

structure ResponseCache (α : Type) where
  entries : List (CacheEntryRec α)
  maxSize : Nat
  ttl : Nat
  hits : Nat
  misses : Nat
  evictions : Nat
deriving DecidableEq

variable {α : Type}

/-- First binding stored under `key` (dict lookup). -/
def findEntry (key : String) : List (CacheEntryRec α) → Option (CacheEntryRec α)
  | [] => none
  | e :: es => if e.key = key then some e else findEntry key es

/-- `del self.cache[key]`: a dict holds at most one binding per key, so
deleting the binding is filtering the key out. -/
def eraseKey (key : String) (l : List (CacheEntryRec α)) : List (CacheEntryRec α) :=
  l.filter (fun e => e.key != key)

/-- Keys of the bindings, in order. -/
def keysOf (l : List (CacheEntryRec α)) : List String :=
  l.map (fun e => e.key)

/-- `ResponseCache.get` (cache.py lines 34-60): miss if absent; if present
but older than `ttl`, the binding is deleted and a miss reported;
otherwise `move_to_end` refreshes recency and a hit is counted. -/
def ResponseCache.get (c : ResponseCache α) (key : String) (now : Nat) :
    Option α × ResponseCache α :=
  match findEntry key c.entries with
  | none => (none, { c with misses := c.misses + 1 })
  | some e =>
      if c.ttl < now - e.timestamp then
        (none, { c with entries := eraseKey key c.entries, misses := c.misses + 1 })
      else
        (some e.value,
          { c with entries := eraseKey key c.entries ++ [e], hits := c.hits + 1 })

/-- `ResponseCache._evict_oldest` (cache.py lines 91-97): delete the first
(oldest) binding and count an eviction; no-op on an empty cache. -/
def ResponseCache.evictOldest (c : ResponseCache α) : ResponseCache α :=
  match c.entries with
  | [] => c
  | _ :: rest => { c with entries := rest, evictions := c.evictions + 1 }

/-- Python `ttl or self.ttl`: a `None` or `0` argument falls back to the
cache-wide ttl. -/
def pyTtlOr (ttlArg : Option Nat) (selfTtl : Nat) : Nat :=
  match ttlArg with
  | some t => if t = 0 then selfTtl else t
  | none => selfTtl

/-- `ResponseCache.set` (cache.py lines 62-89): evict the oldest binding
when at capacity, then store `(value, time.time())` under `key` and move
it to the end.  `cache_ttl` is computed exactly as in the source and,
exactly as in the source, never used afterwards: the stored pair carries
only the insertion timestamp. -/
def ResponseCache.set (c : ResponseCache α) (key : String) (value : α) (now : Nat)
    (ttlArg : Option Nat) : Bool × ResponseCache α :=
  let c1 := if c.maxSize ≤ c.entries.length then c.evictOldest else c
  let cacheTtl := pyTtlOr ttlArg c1.ttl
  (true, { c1 with entries := eraseKey key c1.entries ++ [⟨key, value, now⟩] })

/-- `ResponseCache.delete` (cache.py lines 99-112). -/
def ResponseCache.delete (c : ResponseCache α) (key : String) :
    Bool × ResponseCache α :=
  if (findEntry key c.entries).isSome then
    (true, { c with entries := eraseKey key c.entries })
  else
    (false, c)

/-- `ResponseCache.clear` (cache.py lines 114-120): drops all bindings and
resets the three counters to zero. -/
def ResponseCache.clear (c : ResponseCache α) : ResponseCache α :=
  { c with entries := [], hits := 0, misses := 0, evictions := 0 }

/-- `ResponseCache.cleanup_expired` (cache.py lines 122-144): delete every
binding older than `ttl`, returning how many were removed; surviving
bindings keep their relative order. -/
def ResponseCache.cleanupExpired (c : ResponseCache α) (now : Nat) :
    Nat × ResponseCache α :=
  let kept := c.entries.filter (fun e => !(c.ttl < now - e.timestamp : Bool))
  ((c.entries.filter (fun e => (c.ttl < now - e.timestamp : Bool))).length,
    { c with entries := kept })

/-! ## Cache fingerprint (app/core/cache.py, generate_cache_key and
cached_generate; app/routers/generate.py, generate_text)

`generate_cache_key(model, prompt, **kwargs)` builds the dict
`{'model': model, 'prompt': prompt, **kwargs}`, serializes it with
`json.dumps(..., sort_keys=True)` and returns `"cache:" + md5(...)`.
The md5 digest is a deterministic function of that dict, and on the
dicts produced here (fixed key set, scalar values) the sorted-keys JSON
serialization is injective, so we take the dict itself — the digest
preimage — as the fingerprint.

`cached_generate` wraps `generate_text(self, model_name, prompt,
**kwargs)`; inside the wrapper it computes `model =
kwargs.get('model', 'default')` and `prompt = kwargs.get('prompt', '')`
and keeps only the `max_tokens` and `temperature` kwargs.  Note that the
wrapped function's first parameter is named `model_name` and every
caller passes it positionally, so it lands in `*args`, never in
`kwargs`. -/

/-- The keyword arguments reaching the `cached_generate` wrapper; `none`
means the keyword was not passed.  Temperature is a float in the source;
`Rat` stands for its exact value, which only ever feeds serialization. -/
structure CallKwargs where
  model : Option String
  prompt : Option String
  maxTokens : Option Int
  temperature : Option Rat
deriving DecidableEq

/-- The parameter dict whose sorted-keys JSON is md5-hashed into the
cache key (cache.py lines 263-272). -/
structure CacheKeyParams where
  model : String
  prompt : String
  maxTokens : Option Int
  temperature : Option Rat
deriving DecidableEq

/-- Key computation of the `cached_generate` wrapper (cache.py lines
287-297).  The positional first argument `model_name` is received but —
as in the source — never consulted: the wrapper reads the keyword
`model`, which callers do not pass. -/
def cachedGenerateFingerprint (model_name : String) (kw : CallKwargs) :
    CacheKeyParams :=
  { model := kw.model.getD "default"
    prompt := kw.prompt.getD ""
    maxTokens := kw.maxTokens
    temperature := kw.temperature }

/-- The call shape of the generate router (generate.py lines 32-37):
`inference_service.generate_text(request.model, prompt=..., max_tokens=...,
temperature=...)` — the model positional, the rest keywords. -/
def routerGenerateFingerprint (model : String) (prompt : String)
    (maxTokens : Option Int) (temperature : Option Rat) : CacheKeyParams :=
  cachedGenerateFingerprint model ⟨none, some prompt, maxTokens, temperature⟩

/-! ## Memory pressure manager (app/core/memory_manager.py, MemoryManager)

The three parallel dicts `model_memory_usage`, `model_last_used` and
`model_access_count` share their key set (maintained in lockstep by
register/unregister), so they are embedded as one record list in
insertion order.  `max_memory_usage` is `available * 0.8`, a float fixed
at construction; it is embedded as an arbitrary `Rat` budget. -/

structure ModelMemoryRecord where
  name : String
  memoryUsage : Nat
  lastUsed : Nat
  accessCount : Nat
deriving DecidableEq

structure MemoryManager where
  records : List ModelMemoryRecord
  maxMemoryUsage : Rat
deriving DecidableEq

/-- `get_total_memory_usage` (memory_manager.py lines 87-90). -/
def MemoryManager.totalUsage (m : MemoryManager) : Nat :=
  (m.records.map (fun r => r.memoryUsage)).sum

/-- `register_model_memory` (lines 45-66): no-op reporting failure when
already registered. -/
def MemoryManager.registerModelMemory (m : MemoryManager) (name : String)
    (usage : Nat) (now : Nat) : Bool × MemoryManager :=
  if name ∈ m.records.map (fun r => r.name) then
    (false, m)
  else
    (true, ⟨m.records ++ [⟨name, usage, now, 0⟩], m.maxMemoryUsage⟩)

/-- `update_model_usage` (lines 68-73). -/
def MemoryManager.updateModelUsage (m : MemoryManager) (name : String)
    (now : Nat) : MemoryManager :=
  ⟨m.records.map (fun r =>
      if r.name = name then ⟨r.name, r.memoryUsage, now, r.accessCount + 1⟩ else r),
    m.maxMemoryUsage⟩

/-- `unregister_model_memory` (lines 75-85). -/
def MemoryManager.unregisterModelMemory (m : MemoryManager) (name : String) :
    Bool × MemoryManager :=
  if name ∈ m.records.map (fun r => r.name) then
    (true, ⟨m.records.filter (fun r => r.name != name), m.maxMemoryUsage⟩)
  else
    (false, m)

/-- Urgency score of a tracked model (memory_manager.py line 116):
`idle_time / (access_count + 1)`. -/
def urgencyScore (now : Nat) (r : ModelMemoryRecord) : Rat :=
  ((now : Rat) - (r.lastUsed : Rat)) / ((r.accessCount : Rat) + 1)

/-- Stable insertion into a list sorted by descending urgency score: a
new element goes after every element of score ≥ its own. -/
def insertByScoreDesc (now : Nat) (r : ModelMemoryRecord) :
    List ModelMemoryRecord → List ModelMemoryRecord
  | [] => [r]
  | x :: xs =>
      if urgencyScore now r ≤ urgencyScore now x then
        x :: insertByScoreDesc now r xs
      else
        r :: x :: xs

/-- `candidates.sort(key=lambda x: x[1], reverse=True)` (line 120):
Python's sort is stable and `reverse=True` keeps equal-keyed elements in
their original order, which is exactly what this stable descending
insertion sort computes. -/
def sortByScoreDesc (now : Nat) (l : List ModelMemoryRecord) :
    List ModelMemoryRecord :=
  l.foldl (fun acc r => insertByScoreDesc now r acc) []

/-- The selection loop of `check_memory_pressure` (lines 123-132), kept
with the source's structure: a candidate is appended only when
`remaining - usage <= max_memory_usage`, the freed bytes are then
subtracted, and the loop breaks once `remaining <= max_memory_usage`. -/
def selectModelsToClean (budget : Rat) :
    List ModelMemoryRecord → Rat → List String × Rat
  | [], remaining => ([], remaining)
  | r :: rest, remaining =>
      if remaining - (r.memoryUsage : Rat) ≤ budget then
        let remaining2 := remaining - (r.memoryUsage : Rat)
        if remaining2 ≤ budget then
          ([r.name], remaining2)
        else
          let res := selectModelsToClean budget rest remaining2
          (r.name :: res.1, res.2)
      else
        selectModelsToClean budget rest remaining

/-- `check_memory_pressure` (memory_manager.py lines 92-140). -/
def MemoryManager.checkMemoryPressure (m : MemoryManager) (now : Nat) :
    Bool × List String :=
  let total := m.totalUsage
  if (total : Rat) ≤ m.maxMemoryUsage then
    (false, [])
  else
    (true, (selectModelsToClean m.maxMemoryUsage (sortByScoreDesc now m.records)
      (total : Rat)).1)

/-! ## Model loader and model manager (app/core/model_loader.py,
app/core/model_manager.py)

Only the bookkeeping that the claims touch is embedded: the loader's
`loaded_models` dict is represented by its key list (keys are sanitized
model names), the manager's `models`/`model_info` dicts — which the
manager mutates in lockstep — by one key list.  Model objects, file
paths and engine resources are opaque external collaborators with no
bearing on the claims. -/

/-- `[^a-zA-Z0-9_-]` replacement step of `sanitize_model_name`
(utils.py line 153). -/
def sanitizeChar (c : Char) : Char :=
  if c.isAlpha ∨ c.isDigit ∨ c = '_' ∨ c = '-' then c else '_'

/-- `re.sub(r'_+', '_', s)` (utils.py line 155): collapse runs of
underscores to a single underscore. -/
def collapseUnderscores : List Char → List Char
  | [] => []
  | c :: cs =>
      match collapseUnderscores cs with
      | [] => [c]
      | d :: ds => if c = '_' ∧ d = '_' then d :: ds else c :: d :: ds

/-- `s.strip('_-')` (utils.py line 157). -/
def stripUnderscoreDash (l : List Char) : List Char :=
  ((l.dropWhile (fun c => c = '_' ∨ c = '-')).reverse.dropWhile
    (fun c => c = '_' ∨ c = '-')).reverse

/-- `sanitize_model_name` (utils.py lines 142-159). -/
def sanitizeModelName (s : String) : String :=
  String.mk (((stripUnderscoreDash (collapseUnderscores
    (s.data.map sanitizeChar))).map Char.toLower))

/-- `ModelLoader.unload_model` (model_loader.py lines 228-249): looks the
sanitized name up in `loaded_models`; if present, releases the engine
resource (opaque, no state here) and deletes the record, reporting
success; otherwise reports failure.  The loader state is its
`loaded_models` key list. -/
def ModelLoader.unloadModel (loader : List String) (name : String) :
    Bool × List String :=
  let s := sanitizeModelName name
  if s ∈ loader then
    (true, loader.filter (fun x => x != s))
  else
    (false, loader)

structure ModelManager where
  models : List String
  memory : MemoryManager
  loader : List String
deriving DecidableEq

/-- `ModelManager.unload_model` (model_manager.py lines 132-161): when the
model is registered, ask the loader to unload (its boolean result becomes
the return value), unregister the memory record, delete the local
`models`/`model_info` records — all three regardless of the loader's
answer — and return the loader's answer.  When the model is not
registered, return false and change nothing.  (The `except` branch only
fires when a collaborator raises, which none of the embedded
collaborators do.) -/
def ModelManager.unloadModel (mgr : ModelManager) (name : String) :
    Bool × ModelManager :=
  if name ∈ mgr.models then
    let lr := ModelLoader.unloadModel mgr.loader name
    let mem := mgr.memory.unregisterModelMemory name
    (lr.1, ⟨mgr.models.filter (fun x => x != name), mem.2, lr.2⟩)
  else
    (false, mgr)

/-- The loop of `ModelManager.handle_memory_pressure` (model_manager.py
lines 344-349): for each recommended name that is loaded, unload it and
record it when the unload reported success. -/
def unloadRecommended : List String → ModelManager → List String × ModelManager
  | [], mgr => ([], mgr)
  | n :: rest, mgr =>
      if n ∈ mgr.models then
        let r := mgr.unloadModel n
        let res := unloadRecommended rest r.2
        if r.1 then (n :: res.1, res.2) else res
      else
        unloadRecommended rest mgr

/-- `ModelManager.handle_memory_pressure` (model_manager.py lines
332-351). -/
def ModelManager.handleMemoryPressure (mgr : ModelManager) (now : Nat) :
    List String × ModelManager :=
  let chk := mgr.memory.checkMemoryPressure now
  if chk.1 then unloadRecommended chk.2 mgr else ([], mgr)

/-- A serving-core state extended with ghost information about the
environment: `inFlight` lists the model ids that have an inference
executing at this instant (inferences run concurrently in the worker
thread pool, async_inference.py lines 167-197).  The source keeps no
such data — no field of any class records in-flight inferences — so no
embedded operation reads it. -/
structure ServingState where
  mgr : ModelManager
  inFlight : List String
deriving DecidableEq

/-- Memory-pressure relief as observed on the full serving state: the
manager handles pressure exactly as `handle_memory_pressure` does; the
set of executing inferences plays no part. -/
def ServingState.handleMemoryPressure (s : ServingState) (now : Nat) :
    List String × ServingState :=
  let r := s.mgr.handleMemoryPressure now
  (r.1, ⟨r.2, s.inFlight⟩)

/-! ## Admission queue (app/core/async_inference.py, AsyncInferenceService)

`AsyncInferenceService.__init__` creates `asyncio.Queue(maxsize =
settings.async_queue_size)` (default 1000, config.py line 43).
`generate_text` enqueues with `await self.request_queue.put(...)`
(line 92).  `asyncio.Queue.put` on a queue with positive `maxsize`
appends when a slot is free and otherwise suspends the calling coroutine
until a slot frees; the `asyncio.QueueFull` exception is raised only by
`put_nowait`, which this code never calls. -/

structure PendingRequest where
  modelName : String
  prompt : String
deriving DecidableEq

/-- Outcome of one submission step. -/
inductive SubmitOutcome (α : Type) where
  | enqueued (queue : List α)
  | suspended
  | queueFull
deriving DecidableEq

/-- `asyncio.Queue.put` as a single step: with `0 < maxsize` and the
queue full, the coroutine suspends; otherwise the item is appended.  It
never raises `QueueFull`. -/
def asyncQueuePut {α : Type} (maxsize : Nat) (q : List α) (x : α) :
    SubmitOutcome α :=
  if 0 < maxsize ∧ maxsize ≤ q.length then
    SubmitOutcome.suspended
  else
    SubmitOutcome.enqueued (q ++ [x])

/-- The default admission-queue capacity, `settings.async_queue_size`
(config.py line 43). -/
def asyncQueueSizeDefault : Nat := 1000

/-- The enqueue step of `AsyncInferenceService.generate_text`
(async_inference.py lines 83-96). -/
def generateTextSubmit (q : List PendingRequest) (req : PendingRequest) :
    SubmitOutcome PendingRequest :=
  asyncQueuePut asyncQueueSizeDefault q req

/-! ## Theorems -/

/-- The spec's own worked pressure example (spec §8): budget 10 GB,
model `x` of 6 GB idle 500 s accessed once, model `y` of 6 GB idle 10 s
accessed 50 times — the embedding reproduces `(true, [x])`. -/
theorem checkPressure_matches_spec_example :
    MemoryManager.checkMemoryPressure ⟨[⟨"x", 6, 0, 1⟩, ⟨"y", 6, 490, 50⟩], 10⟩ 500 =
      (true, ["x"]) := by
  norm_num [MemoryManager.checkMemoryPressure, MemoryManager.totalUsage,
    sortByScoreDesc, insertByScoreDesc, urgencyScore, selectModelsToClean]

/-- C1: `check_pressure()` with total usage above budget is claimed to
return a recommendation list whose full eviction brings projected usage
to at most the budget.  The code's selection guard
`remaining - usage <= max` skips every candidate whose single eviction
does not already reach the budget, so with two 300-byte models and a
budget of 100 the call returns `(true, [])` under pressure: evicting the
(empty) returned list leaves usage at 600 > 100, contradicting the
claim and the loop's own comment. -/
theorem C1_pressure_recommendation_shortfall :
    MemoryManager.checkMemoryPressure ⟨[⟨"a", 300, 0, 0⟩, ⟨"b", 300, 0, 0⟩], 100⟩ 50 =
      (true, [])
    ∧ ¬ ((MemoryManager.totalUsage ⟨[⟨"a", 300, 0, 0⟩, ⟨"b", 300, 0, 0⟩], 100⟩ : Rat) ≤
        (⟨[⟨"a", 300, 0, 0⟩, ⟨"b", 300, 0, 0⟩], 100⟩ : MemoryManager).maxMemoryUsage) := by
  constructor
  · norm_num [MemoryManager.checkMemoryPressure, MemoryManager.totalUsage,
      sortByScoreDesc, insertByScoreDesc, urgencyScore, selectModelsToClean]
  · norm_num [MemoryManager.totalUsage]

/-- C2: claimed: whenever total usage exceeds the threshold and at least
one model is registered, `check_pressure()` returns a non-empty
recommendation list.  The code returns `(true, [])` for two registered
models of 30 and 40 bytes against a budget of 10, because no single
model's eviction brings usage to the budget and the selection guard
then skips every candidate. -/
theorem C2_no_recommendation_under_pressure :
    MemoryManager.checkMemoryPressure ⟨[⟨"x", 30, 0, 0⟩, ⟨"y", 40, 0, 0⟩], 10⟩ 5 =
      (true, [])
    ∧ (⟨[⟨"x", 30, 0, 0⟩, ⟨"y", 40, 0, 0⟩], 10⟩ : MemoryManager).records ≠ []
    ∧ ¬ ((MemoryManager.totalUsage ⟨[⟨"x", 30, 0, 0⟩, ⟨"y", 40, 0, 0⟩], 10⟩ : Rat) ≤
        (⟨[⟨"x", 30, 0, 0⟩, ⟨"y", 40, 0, 0⟩], 10⟩ : MemoryManager).maxMemoryUsage) := by
  refine ⟨?_, by decide, ?_⟩
  · norm_num [MemoryManager.checkMemoryPressure, MemoryManager.totalUsage,
      sortByScoreDesc, insertByScoreDesc, urgencyScore, selectModelsToClean]
  · norm_num [MemoryManager.totalUsage]

/-- C3: claimed: two requests that differ in the model identifier produce
different cache fingerprints.  In the code the wrapper reads
`kwargs.get('model', 'default')` while every caller passes the model
positionally (as `model_name`), so the fingerprint is identical for two
router calls that differ only in the model. -/
theorem C3_fingerprint_ignores_model :
    routerGenerateFingerprint "model-a" "hi" (some 64) (some (7 / 10)) =
      routerGenerateFingerprint "model-b" "hi" (some 64) (some (7 / 10))
    ∧ "model-a" ≠ "model-b" :=
  ⟨rfl, by decide⟩

/-- C4 counterexample: claimed: the 1001st submission to a full queue of
capacity 1000 with no consumer fails immediately with a QueueFull error.
The enqueue step of `generate_text` is `await self.request_queue.put(...)`,
which suspends on a full queue and never raises `QueueFull`. -/
theorem C4_submit_full_queue_cex :
    generateTextSubmit (List.replicate 1000 ⟨"q", "p"⟩) ⟨"q", "p2"⟩ =
      SubmitOutcome.suspended
    ∧ generateTextSubmit (List.replicate 1000 ⟨"q", "p"⟩) ⟨"q", "p2"⟩ ≠
      SubmitOutcome.queueFull := by
  have h : generateTextSubmit (List.replicate 1000 ⟨"q", "p"⟩) ⟨"q", "p2"⟩ =
      SubmitOutcome.suspended := by
    unfold generateTextSubmit asyncQueuePut asyncQueueSizeDefault
    rw [if_pos]
    refine ⟨by norm_num, ?_⟩
    rw [List.length_replicate]
  exact ⟨h, by rw [h]; intro hc; cases hc⟩

/-- C4 amended: a submission while the admission queue holds at least
`async_queue_size` requests suspends the caller (blocking backpressure);
no QueueFull error is produced. -/
theorem C4_submit_full_queue_suspends (q : List PendingRequest)
    (r : PendingRequest) (h : asyncQueueSizeDefault ≤ q.length) :
    generateTextSubmit q r = SubmitOutcome.suspended := by
  unfold generateTextSubmit asyncQueuePut
  rw [if_pos]
  exact ⟨by norm_num [asyncQueueSizeDefault], h⟩

/-- C4 witness: the amended theorem applied to a concrete full queue. -/
theorem C4_submit_full_queue_suspends_witness :
    asyncQueueSizeDefault ≤ (List.replicate 1000 (⟨"q", "p"⟩ : PendingRequest)).length
    ∧ generateTextSubmit (List.replicate 1000 ⟨"q", "p"⟩) ⟨"q", "p3"⟩ =
      SubmitOutcome.suspended := by
  have h : asyncQueueSizeDefault ≤
      (List.replicate 1000 (⟨"q", "p"⟩ : PendingRequest)).length := by
    rw [List.length_replicate]
    exact Nat.le_refl 1000
  exact ⟨h, C4_submit_full_queue_suspends _ _ h⟩

/-- C5 counterexample: claimed: pressure relief never unloads a model
with an inference currently executing against it.  In the state where
model `m` (300 bytes, budget 100) is loaded, registered and currently
executing an inference, `handle_memory_pressure` unloads `m`: the code
keeps no in-flight reference count at all. -/
theorem C5_inflight_model_unloaded_cex :
    "m" ∈ (⟨⟨["m"], ⟨[⟨"m", 300, 0, 0⟩], 100⟩, ["m"]⟩, ["m"]⟩ : ServingState).inFlight
    ∧ "m" ∈ (ServingState.handleMemoryPressure
        ⟨⟨["m"], ⟨[⟨"m", 300, 0, 0⟩], 100⟩, ["m"]⟩, ["m"]⟩ 10).1 := by
  have h : ServingState.handleMemoryPressure
      ⟨⟨["m"], ⟨[⟨"m", 300, 0, 0⟩], 100⟩, ["m"]⟩, ["m"]⟩ 10 =
      (["m"], ⟨⟨[], ⟨[], 100⟩, []⟩, ["m"]⟩) := by
    have hs : sanitizeModelName "m" = "m" := rfl
    norm_num [ServingState.handleMemoryPressure, ModelManager.handleMemoryPressure,
      MemoryManager.checkMemoryPressure, MemoryManager.totalUsage,
      sortByScoreDesc, insertByScoreDesc, urgencyScore, selectModelsToClean,
      unloadRecommended, ModelManager.unloadModel, ModelLoader.unloadModel,
      MemoryManager.unregisterModelMemory, hs]
  rw [h]
  exact ⟨by decide, by decide⟩

/-- C5 amended: pressure relief unloads the recommended loaded models
with no regard to executing inferences: both the list of unloaded models
and the resulting manager state are independent of which model ids have
an inference in flight (the code tracks no in-flight reference count). -/
theorem C5_relief_ignores_inflight (mgr : ModelManager)
    (fl1 fl2 : List String) (now : Nat) :
    (ServingState.handleMemoryPressure ⟨mgr, fl1⟩ now).1 =
      (ServingState.handleMemoryPressure ⟨mgr, fl2⟩ now).1
    ∧ (ServingState.handleMemoryPressure ⟨mgr, fl1⟩ now).2.mgr =
      (ServingState.handleMemoryPressure ⟨mgr, fl2⟩ now).2.mgr :=
  ⟨rfl, rfl⟩

/-- C6: the spec's LRU example and the general eviction shape.  With
`max_size = 2`, `ttl = 300`: insert A at t=0, insert B at t=1, read A at
t=2 (a hit returning A's value and making A most recent), insert C at
t=3 — afterwards the cache holds exactly A and C in that recency order,
i.e. B, the least recently used entry, was the one evicted.  In general
a `set` on a cache at capacity with a nonempty entry list evicts exactly
the front (least-recently-used) binding and counts one eviction. -/
theorem C6_lru_eviction :
    ((ResponseCache.get (ResponseCache.set (ResponseCache.set
          (⟨[], 2, 300, 0, 0, 0⟩ : ResponseCache String) "A" "va" 0 none).2
          "B" "vb" 1 none).2 "A" 2).1 = some "va"
      ∧ keysOf (ResponseCache.set (ResponseCache.get (ResponseCache.set
          (ResponseCache.set (⟨[], 2, 300, 0, 0, 0⟩ : ResponseCache String)
          "A" "va" 0 none).2 "B" "vb" 1 none).2 "A" 2).2 "C" "vc" 3
          none).2.entries = ["A", "C"])
    ∧ ∀ (α : Type) (c : ResponseCache α) (k : String) (v : α) (now : Nat)
        (t : Option Nat), c.entries ≠ [] → c.maxSize ≤ c.entries.length →
        keysOf (c.set k v now t).2.entries = keysOf (eraseKey k (c.entries.drop 1)) ++ [k]
        ∧ (c.set k v now t).2.evictions = c.evictions + 1 := by
  refine ⟨by decide, ?_⟩
  intro α c k v now t h1 h2
  simp only [ResponseCache.set]
  rw [if_pos h2]
  rcases hc : c.entries with _ | ⟨e, es⟩
  · exact absurd hc h1
  · unfold ResponseCache.evictOldest
    rw [hc]
    simp [keysOf, eraseKey, List.map_append]

/-- C6 witness: the general eviction clause applied to a concrete cache
at capacity. -/
theorem C6_lru_eviction_witness :
    (⟨[⟨"P", "u", 0⟩], 1, 300, 0, 0, 0⟩ : ResponseCache String).entries ≠ []
    ∧ (⟨[⟨"P", "u", 0⟩], 1, 300, 0, 0, 0⟩ : ResponseCache String).maxSize ≤
        (⟨[⟨"P", "u", 0⟩], 1, 300, 0, 0, 0⟩ : ResponseCache String).entries.length
    ∧ keysOf (ResponseCache.set (⟨[⟨"P", "u", 0⟩], 1, 300, 0, 0, 0⟩ : ResponseCache String)
        "K" "v" 9 none).2.entries =
      keysOf (eraseKey "K"
        ((⟨[⟨"P", "u", 0⟩], 1, 300, 0, 0, 0⟩ : ResponseCache String).entries.drop 1)) ++
        ["K"] :=
  ⟨by decide, by decide,
    (C6_lru_eviction.2 String ⟨[⟨"P", "u", 0⟩], 1, 300, 0, 0, 0⟩ "K" "v" 9 none
      (by decide) (by decide)).1⟩

/-- A key is never among the keys of a list it was erased from. -/
theorem keysOf_eraseKey_not_mem {α : Type} (k : String)
    (l : List (CacheEntryRec α)) : k ∉ keysOf (eraseKey k l) := by
  simp only [keysOf, eraseKey, List.mem_map, List.mem_filter, bne_iff_ne]
  rintro ⟨e, ⟨_, hne⟩, hk⟩
  exact hne hk

/-- C7: a `get` on a key whose stored entry is older than `ttl` at lookup
time reports a miss (counting it), never returns the stored value, and
purges the binding from the cache. -/
theorem C7_expired_get_misses (α : Type) (c : ResponseCache α) (k : String)
    (now : Nat) (e : CacheEntryRec α)
    (hf : findEntry k c.entries = some e) (ht : c.ttl < now - e.timestamp) :
    (c.get k now).1 = none
    ∧ k ∉ keysOf (c.get k now).2.entries
    ∧ (c.get k now).2.misses = c.misses + 1 := by
  unfold ResponseCache.get
  simp only [hf]
  rw [if_pos ht]
  exact ⟨rfl, keysOf_eraseKey_not_mem k c.entries, rfl⟩

/-- C7 witness: an entry stored at t=0 in a ttl-10 cache, read at t=20. -/
theorem C7_expired_get_misses_witness :
    findEntry "k" (⟨[⟨"k", 3, 0⟩], 5, 10, 0, 0, 0⟩ : ResponseCache Nat).entries =
      some ⟨"k", 3, 0⟩
    ∧ (⟨[⟨"k", 3, 0⟩], 5, 10, 0, 0, 0⟩ : ResponseCache Nat).ttl < 20 - 0
    ∧ ((ResponseCache.get (⟨[⟨"k", 3, 0⟩], 5, 10, 0, 0, 0⟩ : ResponseCache Nat) "k" 20).1 =
        none
      ∧ "k" ∉ keysOf (ResponseCache.get
          (⟨[⟨"k", 3, 0⟩], 5, 10, 0, 0, 0⟩ : ResponseCache Nat) "k" 20).2.entries
      ∧ (ResponseCache.get (⟨[⟨"k", 3, 0⟩], 5, 10, 0, 0, 0⟩ : ResponseCache Nat)
          "k" 20).2.misses = 0 + 1) :=
  ⟨by decide, by decide,
    C7_expired_get_misses Nat ⟨[⟨"k", 3, 0⟩], 5, 10, 0, 0, 0⟩ "k" 20 ⟨"k", 3, 0⟩
      (by decide) (by decide)⟩

/-- C8 counterexample: claimed: hit, miss and eviction counts are
monotonically non-decreasing across every cache operation including
`clear`.  `clear` resets all three counters to zero, so on a cache with
counters (5, 2, 1) every counter strictly decreases. -/
theorem C8_clear_resets_counters_cex :
    (ResponseCache.clear (⟨[], 10, 300, 5, 2, 1⟩ : ResponseCache Nat)).hits <
      (⟨[], 10, 300, 5, 2, 1⟩ : ResponseCache Nat).hits
    ∧ (ResponseCache.clear (⟨[], 10, 300, 5, 2, 1⟩ : ResponseCache Nat)).misses <
      (⟨[], 10, 300, 5, 2, 1⟩ : ResponseCache Nat).misses
    ∧ (ResponseCache.clear (⟨[], 10, 300, 5, 2, 1⟩ : ResponseCache Nat)).evictions <
      (⟨[], 10, 300, 5, 2, 1⟩ : ResponseCache Nat).evictions := by decide

/-- C8 amended: the hit, miss and eviction counters are monotonically
non-decreasing across `get`, `set`, `delete` (invalidate) and
`cleanup_expired` (sweep); `clear`, however, resets all three counters
to zero. -/
theorem C8_counters_monotone (α : Type) (c : ResponseCache α) (k : String)
    (v : α) (now : Nat) (t : Option Nat) :
    (c.hits ≤ (c.get k now).2.hits ∧ c.misses ≤ (c.get k now).2.misses
      ∧ c.evictions ≤ (c.get k now).2.evictions)
    ∧ (c.hits ≤ (c.set k v now t).2.hits ∧ c.misses ≤ (c.set k v now t).2.misses
      ∧ c.evictions ≤ (c.set k v now t).2.evictions)
    ∧ (c.hits ≤ (c.delete k).2.hits ∧ c.misses ≤ (c.delete k).2.misses
      ∧ c.evictions ≤ (c.delete k).2.evictions)
    ∧ (c.hits ≤ (c.cleanupExpired now).2.hits
      ∧ c.misses ≤ (c.cleanupExpired now).2.misses
      ∧ c.evictions ≤ (c.cleanupExpired now).2.evictions) := by
  refine ⟨?_, ?_, ?_, ?_⟩
  · unfold ResponseCache.get
    split
    · simp
    · split <;> simp
  · simp only [ResponseCache.set, ResponseCache.evictOldest]
    split
    · split <;> simp
    · simp
  · unfold ResponseCache.delete
    split <;> simp
  · unfold ResponseCache.cleanupExpired
    simp

/-- C9 counterexample: claimed: when the loader reports an unload
failure, the model stays registered as loaded with its memory record
intact.  With model `m` registered in the manager but unknown to the
loader, `unload_model` returns false yet removes `m` from the loaded
set and erases its memory record. -/
theorem C9_unload_failure_cex :
    (ModelManager.unloadModel ⟨["m"], ⟨[⟨"m", 300, 0, 0⟩], 1000⟩, []⟩ "m").1 = false
    ∧ "m" ∉ (ModelManager.unloadModel ⟨["m"], ⟨[⟨"m", 300, 0, 0⟩], 1000⟩, []⟩ "m").2.models
    ∧ (ModelManager.unloadModel
        ⟨["m"], ⟨[⟨"m", 300, 0, 0⟩], 1000⟩, []⟩ "m").2.memory.records = [] := by
  have h : ModelManager.unloadModel ⟨["m"], ⟨[⟨"m", 300, 0, 0⟩], 1000⟩, []⟩ "m" =
      (false, ⟨[], ⟨[], 1000⟩, []⟩) := by
    have hs : sanitizeModelName "m" = "m" := rfl
    norm_num [ModelManager.unloadModel, ModelLoader.unloadModel,
      MemoryManager.unregisterModelMemory, hs]
  rw [h]
  exact ⟨rfl, by decide, rfl⟩

/-- C9 amended: when the model is registered but the loader reports
failure, `unload_model` returns false AND removes the model's loaded
registration and memory record all the same (the records survive only
when a collaborator raises); unloading a model that is not registered
returns false and changes nothing. -/
theorem C9_unload_failure_semantics (mgr : ModelManager) (name : String) :
    (name ∈ mgr.models → sanitizeModelName name ∉ mgr.loader →
      ((mgr.unloadModel name).1 = false
        ∧ name ∉ (mgr.unloadModel name).2.models
        ∧ name ∉ (mgr.unloadModel name).2.memory.records.map (fun r => r.name)))
    ∧ (name ∉ mgr.models → mgr.unloadModel name = (false, mgr)) := by
  constructor
  · intro h1 h2
    simp only [ModelManager.unloadModel, ModelLoader.unloadModel]
    rw [if_pos h1, if_neg h2]
    refine ⟨rfl, ?_, ?_⟩
    · simp [List.mem_filter]
    · unfold MemoryManager.unregisterModelMemory
      split
      · simp [List.mem_map, List.mem_filter]
      · next h3 => exact h3
  · intro h1
    unfold ModelManager.unloadModel
    rw [if_neg h1]

/-- C9 witness: the amended theorem at a loaded model the loader does not
know, and at a model that is not loaded. -/
theorem C9_unload_failure_semantics_witness :
    ("w" ∈ (⟨["w"], ⟨[⟨"w", 5, 0, 0⟩], 99⟩, ["other"]⟩ : ModelManager).models
      ∧ sanitizeModelName "w" ∉
          (⟨["w"], ⟨[⟨"w", 5, 0, 0⟩], 99⟩, ["other"]⟩ : ModelManager).loader
      ∧ ((ModelManager.unloadModel ⟨["w"], ⟨[⟨"w", 5, 0, 0⟩], 99⟩, ["other"]⟩ "w").1 = false
        ∧ "w" ∉ (ModelManager.unloadModel
            ⟨["w"], ⟨[⟨"w", 5, 0, 0⟩], 99⟩, ["other"]⟩ "w").2.models
        ∧ "w" ∉ (ModelManager.unloadModel
            ⟨["w"], ⟨[⟨"w", 5, 0, 0⟩], 99⟩, ["other"]⟩ "w").2.memory.records.map
            (fun r => r.name)))
    ∧ ("z" ∉ (⟨["w"], ⟨[⟨"w", 5, 0, 0⟩], 99⟩, ["other"]⟩ : ModelManager).models
      ∧ ModelManager.unloadModel ⟨["w"], ⟨[⟨"w", 5, 0, 0⟩], 99⟩, ["other"]⟩ "z" =
          (false, ⟨["w"], ⟨[⟨"w", 5, 0, 0⟩], 99⟩, ["other"]⟩)) :=
  ⟨⟨by decide, by decide,
      (C9_unload_failure_semantics ⟨["w"], ⟨[⟨"w", 5, 0, 0⟩], 99⟩, ["other"]⟩ "w").1
        (by decide) (by decide)⟩,
    ⟨by decide,
      (C9_unload_failure_semantics ⟨["w"], ⟨[⟨"w", 5, 0, 0⟩], 99⟩, ["other"]⟩ "z").2
        (by decide)⟩⟩

/-- C10: the per-entry ttl argument of `set` has no effect: for any two
ttl arguments the resulting cache states are identical (the source
computes `cache_ttl = ttl or self.ttl` and never uses it), and the
cache-wide ttl — the only ttl consulted by `get` and `cleanup_expired` —
is unchanged by `set`. -/
theorem C10_set_ttl_argument_unused (α : Type) (c : ResponseCache α)
    (k : String) (v : α) (now : Nat) (t1 t2 : Option Nat) :
    c.set k v now t1 = c.set k v now t2
    ∧ (c.set k v now t1).2.ttl = c.ttl := by
  refine ⟨rfl, ?_⟩
  unfold ResponseCache.set ResponseCache.evictOldest
  split
  · split <;> rfl
  · rfl

end LlmEngine
